import Mathlib

/-!
Verification of the PDF utility service (src/backend/main.py) against its
specification.  The Python handlers are shallowly embedded: filesystem and
subprocess effects are supplied by an explicit environment record, and each
handler becomes a total Lean function from that environment to an outcome
describing the HTTP result and the observable side effects (files written,
files deleted, number of external tool invocations).
-/

namespace AndPdf

/-- An HTTPException as raised by the handlers: status code plus detail string. -/
structure HErr where
  status : Nat
  detail : String
deriving DecidableEq, Repr

/-- One entry of the `quality_settings` dict in `compress_pdf`
(preset name, colour / gray / mono image resolutions, JPEG quality, downsample flag). -/
structure QSettings where
  preset : String
  color_res : Nat
  gray_res : Nat
  mono_res : Nat
  jpeg_q : Nat
  downsample : Bool
deriving DecidableEq, Repr

/-- The `quality_settings` dict lookup (main.py lines 162-200): maps a level to
its parameter set, `none` for a level outside the dict (dict membership test). -/
def quality_settings (level : Int) : Option QSettings :=
  if level = 0 then some ⟨"/screen", 72, 72, 72, 10, true⟩
  else if level = 1 then some ⟨"/ebook", 150, 150, 150, 50, true⟩
  else if level = 2 then some ⟨"/printer", 300, 300, 300, 75, false⟩
  else if level = 3 then some ⟨"/prepress", 300, 300, 300, 90, false⟩
  else none

/-- FastAPI default for the `level` query parameter (`level: int = 0`, line 139). -/
def default_level : Int := 0

/-- Environment for one `compress_pdf` request: the request data together with
an oracle for every external effect (Ghostscript runs, resulting file states).
`primaryOutAfter` is the state of `output_path` after the primary run
(`none` = the file does not exist, `some n` = it exists with size `n`);
likewise `fallbackOutAfter` for `fallback_path` after the fallback run and
`aggressiveOutAfter` for the state of the path the aggressive command writes to
(the current output path) after that run, whether or not the run succeeded. -/
structure Env where
  filenameIsPdf : Bool
  origSize : Nat
  gsFound : Bool
  primaryOk : Bool
  primaryDiag : String
  primaryOutAfter : Option Nat
  fallbackOk : Bool
  fallbackOutAfter : Option Nat
  fallbackErr : String
  aggressiveOk : Bool
  aggressiveOutAfter : Option Nat
  inputRemoveOk : Bool
deriving DecidableEq, Repr

/-- Which workspace artifact is streamed back (`output_path` or `fallback_path`). -/
inductive PathId where
  | output
  | fallback
deriving DecidableEq, Repr

/-- The successful response of `compress_pdf`: the streamed artifact, the actual
size of the file at that path at return time, and the response headers.
`xReductionPercentage` holds the computed value (the header renders it with two
decimals). -/
structure Response where
  path : PathId
  fileSize : Option Nat
  xOriginalSize : Nat
  xCompressedSize : Nat
  xReductionPercentage : Rat
  xQualitySetting : String
deriving DecidableEq, Repr

/-- Observable outcome of one `compress_pdf` request: HTTP result plus the side
effects on the workspace.  `outputDeleted` records whether the pipeline removed
the chosen output artifact (the source contains a single `os.remove`, on
`input_path` only). -/
structure Outcome where
  result : Except HErr Response
  inputWritten : Bool
  inputDeleted : Bool
  outputDeleted : Bool
  procCalls : Nat

/-- Detail string of the Ghostscript-missing HTTPException (lines 204-208). -/
def gsNotFoundDetail : String :=
  "Ghostscript not found. Please install Ghostscript and add it to your system PATH."

/-- Detail string of the total-failure HTTPException (lines 309-313); `diag` is
the `stderr_output` variable, captured by the primary attempt. -/
def compressionFailedDetail (diag : String) : String :=
  "Compression failed after all attempts. Ghostscript error: " ++ diag

/-- Reduction formula of line 363:
`max(0.0, 100 * (1 - comp_size / orig_size)) if orig_size > 0 else 0.0`. -/
def reduction (orig comp : Nat) : Rat :=
  if 0 < orig then max 0 (100 * (1 - (comp : Rat) / (orig : Rat))) else 0

/-- Success exit of the pipeline (lines 362-389): compute the reduction, build
the headers from `settings` of the requested level, best-effort remove the
input artifact, stream the file at the current output path. -/
def mkResponse (env : Env) (settings : QSettings) (path : PathId)
    (fileAfter : Option Nat) (orig comp calls : Nat) : Outcome :=
  { result := .ok
      { path := path
        fileSize := fileAfter
        xOriginalSize := orig
        xCompressedSize := comp
        xReductionPercentage := reduction orig comp
        xQualitySetting := settings.preset }
    inputWritten := true
    inputDeleted := env.inputRemoveOk
    outputDeleted := false
    procCalls := calls }

/-- Lines 316-360: with a verified non-empty output of size `comp`, run the
aggressive escalation when `comp_size >= orig_size and level < 2`.  The
aggressive command writes to the current output path itself
(`-sOutputFile={output_path}`), so the file at that path afterwards is
`env.aggressiveOutAfter`; `comp_size` is updated only when the run returned
cleanly, the file could be stat-ed, and the new size is strictly smaller. -/
def escalationStep (env : Env) (level : Int) (settings : QSettings) (path : PathId)
    (orig comp calls : Nat) : Outcome :=
  if orig ≤ comp ∧ level < 2 then
    let comp' : Nat :=
      if env.aggressiveOk then
        match env.aggressiveOutAfter with
        | some m => if m < comp then m else comp
        | none => comp
      else comp
    mkResponse env settings path env.aggressiveOutAfter orig comp' (calls + 1)
  else
    mkResponse env settings path (some comp) orig comp calls

/-- Lines 309-317: `not compression_success or not exists(output) or size == 0`
raises the total-failure HTTPException with the primary attempt's diagnostics;
otherwise read `orig_size` and `comp_size` and continue with the escalation. -/
def verifyAndFinish (env : Env) (level : Int) (settings : QSettings)
    (success : Bool) (path : PathId) (outState : Option Nat) (calls : Nat) : Outcome :=
  match success, outState with
  | true, some (n + 1) =>
      escalationStep env level settings path env.origSize (n + 1) calls
  | _, _ =>
      { result := .error ⟨500, compressionFailedDetail env.primaryDiag⟩
        inputWritten := true
        inputDeleted := false
        outputDeleted := false
        procCalls := calls }

/-- Lines 245-307: run the primary attempt, then re-test
`not compression_success or not exists(output_path) or getsize(output_path) == 0`;
when it holds, run the fallback command and switch `output_path` to
`fallback_path` exactly when that run returned cleanly and left a file of
non-zero size.  `stderr_output` stays the primary attempt's text throughout
(the fallback's exception text goes to a local variable that is only printed). -/
def fallbackStep (env : Env) (level : Int) (settings : QSettings) : Outcome :=
  if env.primaryOk = false ∨ env.primaryOutAfter = none ∨ env.primaryOutAfter = some 0 then
    match env.fallbackOk, env.fallbackOutAfter with
    | true, some (n + 1) =>
        verifyAndFinish env level settings true .fallback (some (n + 1)) 2
    | _, _ =>
        verifyAndFinish env level settings env.primaryOk .output env.primaryOutAfter 2
  else
    verifyAndFinish env level settings env.primaryOk .output env.primaryOutAfter 1

/-- The `compress_pdf` handler (lines 138-389).  Order of the source: filename
suffix check, save the uploaded content to `input_path`, level validation
against the `quality_settings` dict, Ghostscript lookup, then the attempts. -/
def compress_pdf (env : Env) (level : Int) : Outcome :=
  if env.filenameIsPdf = false then
    { result := .error ⟨400, "File must be a PDF"⟩
      inputWritten := false, inputDeleted := false, outputDeleted := false, procCalls := 0 }
  else
    match quality_settings level with
    | none =>
        { result := .error ⟨400, "Compression level must be 0, 1, 2, or 3"⟩
          inputWritten := true, inputDeleted := false, outputDeleted := false, procCalls := 0 }
    | some settings =>
        if env.gsFound = false then
          { result := .error ⟨500, gsNotFoundDetail⟩
            inputWritten := true, inputDeleted := false, outputDeleted := false, procCalls := 0 }
        else
          fallbackStep env level settings

/-- `compress_pdf` invoked without a `level` query parameter: FastAPI supplies
the declared default. -/
def compress_pdf_default (env : Env) : Outcome :=
  compress_pdf env default_level

/-! ### Merge handler -/

/-- One uploaded file of a merge request: declared filename plus its page list
(pages are abstract identifiers; a page list is what the PDF library reads from
a well-formed document). -/
structure MUploadFile where
  filename : String
  pages : List Nat
deriving DecidableEq, Repr

/-- The filename test `f.filename.lower().endswith(".pdf")` of lines 119 and
148, over the character list of the name. -/
def lowerEndsWithPdf (s : String) : Bool :=
  List.isSuffixOf ".pdf".data (s.data.map Char.toLower)

/-- The per-file loop of `merge_pdfs` (lines 118-124): for each file in order,
reject a non-`.pdf` filename with a 400 naming the file, otherwise append all
its pages to the accumulator.  `merger.append` is modelled from the spec:
PyPDF2's `PdfMerger.append` is an external collaborator, specified as
"Append all pages from each validated document, in input order". -/
def mergeLoop : List MUploadFile → List Nat → Except HErr (List Nat)
  | [], acc => .ok acc
  | f :: rest, acc =>
      if lowerEndsWithPdf f.filename then mergeLoop rest (acc ++ f.pages)
      else .error ⟨400, f.filename ++ " is not a PDF"⟩

/-- The `merge_pdfs` handler (lines 107-132): fewer than 2 files is a 400,
otherwise the files are appended in order into one output document. -/
def merge_pdfs (files : List MUploadFile) : Except HErr (List Nat) :=
  if files.length < 2 then .error ⟨400, "At least 2 PDF files are required"⟩
  else mergeLoop files []

/-- Concatenation of all pages of all files, in input-file order and page order
within each file. -/
def allPages : List MUploadFile → List Nat
  | [] => []
  | f :: rest => f.pages ++ allPages rest

/-! ### Startup workspace cleanup -/

/-- One directory entry seen by `os.listdir(UPLOAD_DIR)`: its name, whether
`os.path.isfile` holds (non-recursive scan: subdirectories are entries with
`isFile = false`), its last-modified time, and whether `os.remove` on it would
succeed (`removeOk = false` makes the per-file try block raise). -/
structure DirEntry where
  name : String
  isFile : Bool
  mtime : Int
  removeOk : Bool
deriving DecidableEq, Repr

/-- `cleanup_old_files` (lines 63-74): for each entry, if it is a regular file
and `now - getmtime > 3600`, remove it; an exception from the removal is caught,
printed and skipped, leaving the entry in place.  Returns the entries that
remain in the directory. -/
def cleanup_old_files (now : Int) : List DirEntry → List DirEntry
  | [] => []
  | entry :: rest =>
      if entry.isFile then
        if 3600 < now - entry.mtime then
          if entry.removeOk then cleanup_old_files now rest
          else entry :: cleanup_old_files now rest
        else entry :: cleanup_old_files now rest
      else entry :: cleanup_old_files now rest

/-! ### Concrete environments for witnesses and counterexamples -/

/-- Escalation scenario: 50-byte input, primary attempt outputs 100 bytes, the
aggressive attempt runs cleanly and produces a 200-byte file. -/
def c1Env : Env :=
  { filenameIsPdf := true, origSize := 50, gsFound := true
    primaryOk := true, primaryDiag := "", primaryOutAfter := some 100
    fallbackOk := false, fallbackOutAfter := none, fallbackErr := ""
    aggressiveOk := true, aggressiveOutAfter := some 200
    inputRemoveOk := true }

/-- A request with a valid filename (used with an out-of-range level). -/
def c2Env : Env :=
  { filenameIsPdf := true, origSize := 10, gsFound := true
    primaryOk := false, primaryDiag := "", primaryOutAfter := none
    fallbackOk := false, fallbackOutAfter := none, fallbackErr := ""
    aggressiveOk := false, aggressiveOutAfter := none
    inputRemoveOk := true }

/-- A request on a host without Ghostscript on the search path. -/
def c3Env : Env :=
  { filenameIsPdf := true, origSize := 10, gsFound := false
    primaryOk := false, primaryDiag := "", primaryOutAfter := none
    fallbackOk := false, fallbackOutAfter := none, fallbackErr := ""
    aggressiveOk := false, aggressiveOutAfter := none
    inputRemoveOk := true }

/-- A request on which every attempt fails (no output ever produced). -/
def c4Env : Env :=
  { filenameIsPdf := true, origSize := 10, gsFound := true
    primaryOk := false, primaryDiag := "gs boom", primaryOutAfter := none
    fallbackOk := false, fallbackOutAfter := none, fallbackErr := "gs boom again"
    aggressiveOk := false, aggressiveOutAfter := none
    inputRemoveOk := true }

/-- A successful request: 100-byte input compressed to 40 bytes by the primary
attempt. -/
def c5Env : Env :=
  { filenameIsPdf := true, origSize := 100, gsFound := true
    primaryOk := true, primaryDiag := "", primaryOutAfter := some 40
    fallbackOk := false, fallbackOutAfter := none, fallbackErr := ""
    aggressiveOk := false, aggressiveOutAfter := none
    inputRemoveOk := true }

/-- Primary and fallback both fail, each with its own diagnostic text. -/
def c6Env : Env :=
  { filenameIsPdf := true, origSize := 10, gsFound := true
    primaryOk := false, primaryDiag := "primary boom", primaryOutAfter := none
    fallbackOk := false, fallbackOutAfter := none, fallbackErr := "fallback boom"
    aggressiveOk := false, aggressiveOutAfter := none
    inputRemoveOk := true }

/-- Two well-named PDF uploads of one and two pages. -/
def c7Files : List MUploadFile :=
  [⟨"a.pdf", [1]⟩, ⟨"b.pdf", [2, 3]⟩]

/-- A directory with a fresh file, a stale file, a stale undeletable file and a
stale subdirectory, at `now = 10000`. -/
def c8Entries : List DirEntry :=
  [⟨"fresh.pdf", true, 8000, true⟩,
   ⟨"stale.pdf", true, 1000, true⟩,
   ⟨"locked.pdf", true, 1000, false⟩,
   ⟨"subdir", false, 1000, true⟩]

/-- A plain successful request (primary attempt shrinks 100 bytes to 40). -/
def c9Env : Env :=
  { filenameIsPdf := true, origSize := 100, gsFound := true
    primaryOk := true, primaryDiag := "", primaryOutAfter := some 40
    fallbackOk := false, fallbackOutAfter := none, fallbackErr := ""
    aggressiveOk := false, aggressiveOutAfter := none
    inputRemoveOk := true }

/-- Primary attempt fails, fallback succeeds with a 10-byte output from a
100-byte input: the returned file comes from the fallback profile. -/
def c10Env : Env :=
  { filenameIsPdf := true, origSize := 100, gsFound := true
    primaryOk := false, primaryDiag := "gs crashed", primaryOutAfter := none
    fallbackOk := true, fallbackOutAfter := some 10, fallbackErr := ""
    aggressiveOk := false, aggressiveOutAfter := none
    inputRemoveOk := true }

/-! ### Helper lemmas about the reduction formula -/

theorem reduction_nonneg (orig comp : Nat) : 0 ≤ reduction orig comp := by
  unfold reduction
  split
  · exact le_max_left 0 _
  · exact le_refl 0

theorem reduction_le_hundred (orig comp : Nat) : reduction orig comp ≤ 100 := by
  unfold reduction
  split
  · have hc : (0 : Rat) ≤ (comp : Rat) / (orig : Rat) := by positivity
    have h100 : 100 * (1 - (comp : Rat) / (orig : Rat)) ≤ 100 := by nlinarith
    exact max_le (by norm_num) h100
  · norm_num

theorem reduction_eq_zero_of_le (orig comp : Nat) (h : orig ≤ comp) :
    reduction orig comp = 0 := by
  unfold reduction
  split
  · rename_i ho
    have ho' : (0 : Rat) < (orig : Rat) := by exact_mod_cast ho
    have h1 : (1 : Rat) ≤ (comp : Rat) / (orig : Rat) := by
      rw [le_div_iff₀ ho']
      have : (orig : Rat) ≤ (comp : Rat) := by exact_mod_cast h
      linarith
    have hle : 100 * (1 - (comp : Rat) / (orig : Rat)) ≤ 0 := by nlinarith
    exact max_eq_left hle
  · rfl

theorem reduction_orig_zero (comp : Nat) : reduction 0 comp = 0 := by
  simp [reduction]

/-! ### Structural lemmas for the compression pipeline -/

theorem mkResponse_ok (env : Env) (settings : QSettings) (path : PathId)
    (fileAfter : Option Nat) (orig comp calls : Nat) (r : Response)
    (h : (mkResponse env settings path fileAfter orig comp calls).result = .ok r) :
    r.xReductionPercentage = reduction r.xOriginalSize r.xCompressedSize ∧
    r.xQualitySetting = settings.preset := by
  simp only [mkResponse] at h
  injection h with h
  subst h
  exact ⟨rfl, rfl⟩

theorem escalationStep_ok (env : Env) (level : Int) (settings : QSettings)
    (path : PathId) (orig comp calls : Nat) (r : Response)
    (h : (escalationStep env level settings path orig comp calls).result = .ok r) :
    r.xReductionPercentage = reduction r.xOriginalSize r.xCompressedSize ∧
    r.xQualitySetting = settings.preset := by
  unfold escalationStep at h
  split at h
  · exact mkResponse_ok _ _ _ _ _ _ _ _ h
  · exact mkResponse_ok _ _ _ _ _ _ _ _ h

theorem escalationStep_shape (env : Env) (level : Int) (settings : QSettings)
    (path : PathId) (orig comp calls : Nat) :
    (∃ r, (escalationStep env level settings path orig comp calls).result = .ok r) ∧
    (escalationStep env level settings path orig comp calls).inputDeleted = env.inputRemoveOk ∧
    (escalationStep env level settings path orig comp calls).outputDeleted = false := by
  unfold escalationStep
  split
  · exact ⟨⟨_, rfl⟩, rfl, rfl⟩
  · exact ⟨⟨_, rfl⟩, rfl, rfl⟩

theorem verifyAndFinish_ok (env : Env) (level : Int) (settings : QSettings)
    (success : Bool) (path : PathId) (outState : Option Nat) (calls : Nat) (r : Response)
    (h : (verifyAndFinish env level settings success path outState calls).result = .ok r) :
    r.xReductionPercentage = reduction r.xOriginalSize r.xCompressedSize ∧
    r.xQualitySetting = settings.preset := by
  unfold verifyAndFinish at h
  split at h
  · exact escalationStep_ok _ _ _ _ _ _ _ _ h
  · simp at h

theorem verifyAndFinish_shape (env : Env) (level : Int) (settings : QSettings)
    (success : Bool) (path : PathId) (outState : Option Nat) (calls : Nat) :
    ((∃ r, (verifyAndFinish env level settings success path outState calls).result = .ok r) ∧
      (verifyAndFinish env level settings success path outState calls).inputDeleted =
        env.inputRemoveOk ∧
      (verifyAndFinish env level settings success path outState calls).outputDeleted = false) ∨
    ((verifyAndFinish env level settings success path outState calls).result =
        .error ⟨500, compressionFailedDetail env.primaryDiag⟩ ∧
      (verifyAndFinish env level settings success path outState calls).inputDeleted = false ∧
      (verifyAndFinish env level settings success path outState calls).outputDeleted = false) := by
  unfold verifyAndFinish
  split
  · exact Or.inl (escalationStep_shape _ _ _ _ _ _ _)
  · exact Or.inr ⟨rfl, rfl, rfl⟩

theorem fallbackStep_ok (env : Env) (level : Int) (settings : QSettings) (r : Response)
    (h : (fallbackStep env level settings).result = .ok r) :
    r.xReductionPercentage = reduction r.xOriginalSize r.xCompressedSize ∧
    r.xQualitySetting = settings.preset := by
  unfold fallbackStep at h
  split at h
  · split at h
    · exact verifyAndFinish_ok _ _ _ _ _ _ _ _ h
    · exact verifyAndFinish_ok _ _ _ _ _ _ _ _ h
  · exact verifyAndFinish_ok _ _ _ _ _ _ _ _ h

theorem fallbackStep_shape (env : Env) (level : Int) (settings : QSettings) :
    ((∃ r, (fallbackStep env level settings).result = .ok r) ∧
      (fallbackStep env level settings).inputDeleted = env.inputRemoveOk ∧
      (fallbackStep env level settings).outputDeleted = false) ∨
    ((fallbackStep env level settings).result =
        .error ⟨500, compressionFailedDetail env.primaryDiag⟩ ∧
      (fallbackStep env level settings).inputDeleted = false ∧
      (fallbackStep env level settings).outputDeleted = false) := by
  unfold fallbackStep
  split
  · split
    · exact verifyAndFinish_shape _ _ _ _ _ _ _
    · exact verifyAndFinish_shape _ _ _ _ _ _ _
  · exact verifyAndFinish_shape _ _ _ _ _ _ _

theorem compress_pdf_ok (env : Env) (level : Int) (r : Response)
    (h : (compress_pdf env level).result = .ok r) :
    ∃ s, quality_settings level = some s ∧
      r.xReductionPercentage = reduction r.xOriginalSize r.xCompressedSize ∧
      r.xQualitySetting = s.preset := by
  unfold compress_pdf at h
  split at h
  · simp at h
  · split at h
    · simp at h
    · rename_i settings heq
      split at h
      · simp at h
      · exact ⟨settings, heq, fallbackStep_ok _ _ _ _ h⟩

theorem compress_pdf_shape (env : Env) (level : Int) :
    ((∃ r, (compress_pdf env level).result = .ok r) ∧
      (compress_pdf env level).inputDeleted = env.inputRemoveOk ∧
      (compress_pdf env level).outputDeleted = false) ∨
    ((∃ e, (compress_pdf env level).result = .error e) ∧
      (compress_pdf env level).inputDeleted = false ∧
      (compress_pdf env level).outputDeleted = false) := by
  unfold compress_pdf
  split
  · exact Or.inr ⟨⟨_, rfl⟩, rfl, rfl⟩
  · split
    · exact Or.inr ⟨⟨_, rfl⟩, rfl, rfl⟩
    · split
      · exact Or.inr ⟨⟨_, rfl⟩, rfl, rfl⟩
      · rcases fallbackStep_shape env level _ with ⟨⟨r, hr⟩, h1, h2⟩ | ⟨hr, h1, h2⟩
        · exact Or.inl ⟨⟨r, hr⟩, h1, h2⟩
        · exact Or.inr ⟨⟨_, hr⟩, h1, h2⟩

theorem compress_pdf_err_500 (env : Env) (level : Int) (s : QSettings) (e : HErr)
    (hname : env.filenameIsPdf = true) (hs : quality_settings level = some s)
    (h : (compress_pdf env level).result = .error e) :
    e.status = 500 := by
  unfold compress_pdf at h
  rw [hname] at h
  simp only [Bool.true_eq_false, if_false, hs] at h
  split at h
  · injection h with h
    subst h
    rfl
  · rcases fallbackStep_shape env level s with ⟨⟨r, hr⟩, -, -⟩ | ⟨hr, -, -⟩
    · rw [hr] at h
      simp at h
    · rw [hr] at h
      injection h with h
      subst h
      rfl

/-! ### Claim theorems -/

/-- C1: the escalation attempt is meant to replace the previous output only when
strictly smaller, otherwise return the previous output with a matching reported
size.  The code instead makes the aggressive command write to the very path it
returns, so on `c1Env` (50-byte input, 100-byte primary output, 200-byte
aggressive output) the streamed file has 200 bytes while `X-Compressed-Size`
reports 100: the previous output is gone and the reported size does not match
the returned file. -/
theorem c1_escalation_clobbers_output :
    ∃ r, (compress_pdf c1Env 0).result = .ok r ∧
      r.path = .output ∧ r.xCompressedSize = 100 ∧ r.fileSize = some 200 :=
  ⟨_, rfl, rfl, rfl, rfl⟩

/-- C2 counterexample: a request with level 4 and a valid filename is answered
with the 400 level error, yet the uploaded input has already been written to the
workspace — a temp artifact exists for the rejected request. -/
theorem c2_level_check_after_write :
    (compress_pdf c2Env 4).result =
      .error ⟨400, "Compression level must be 0, 1, 2, or 3"⟩ ∧
    (compress_pdf c2Env 4).inputWritten = true :=
  ⟨rfl, rfl⟩

/-- C2 amended: a level outside 0-3 is rejected with HTTP 400 before any
external invocation, but only after the uploaded input has been persisted to
the workspace; that input artifact is not deleted on this path. -/
theorem c2_amended_reject_after_write (env : Env) (level : Int)
    (hname : env.filenameIsPdf = true)
    (hlevel : level ≠ 0 ∧ level ≠ 1 ∧ level ≠ 2 ∧ level ≠ 3) :
    compress_pdf env level =
      { result := .error ⟨400, "Compression level must be 0, 1, 2, or 3"⟩
        inputWritten := true, inputDeleted := false, outputDeleted := false
        procCalls := 0 } := by
  have hq : quality_settings level = none := by
    simp [quality_settings, hlevel.1, hlevel.2.1, hlevel.2.2.1, hlevel.2.2.2]
  simp [compress_pdf, hname, hq]

/-- C2 witness: level 5 with a valid filename. -/
theorem c2_amended_witness :
    compress_pdf c2Env 5 =
      { result := .error ⟨400, "Compression level must be 0, 1, 2, or 3"⟩
        inputWritten := true, inputDeleted := false, outputDeleted := false
        procCalls := 0 } :=
  c2_amended_reject_after_write c2Env 5 rfl (by decide)

/-- C3 counterexample: with Ghostscript absent, the request does fail with the
distinct 500 install message and zero external invocations, but the uploaded
file has already been saved to the workspace, so the failure is not reported
before file I/O. -/
theorem c3_gs_check_after_write :
    (compress_pdf c3Env 0).result = .error ⟨500, gsNotFoundDetail⟩ ∧
    (compress_pdf c3Env 0).inputWritten = true ∧
    (compress_pdf c3Env 0).procCalls = 0 :=
  ⟨rfl, rfl, rfl⟩

/-- C3 amended: when Ghostscript cannot be located, every compression request
with a valid filename and level fails with the distinct 500 response naming
what to install and zero external process invocations are attempted — but the
uploaded input has already been written to the workspace (and is left there). -/
theorem c3_amended_gs_missing (env : Env) (level : Int) (s : QSettings)
    (hname : env.filenameIsPdf = true)
    (hlevel : quality_settings level = some s)
    (hgs : env.gsFound = false) :
    compress_pdf env level =
      { result := .error ⟨500, gsNotFoundDetail⟩
        inputWritten := true, inputDeleted := false, outputDeleted := false
        procCalls := 0 } := by
  simp [compress_pdf, hname, hlevel, hgs]

/-- C3 witness: Ghostscript missing at level 0. -/
theorem c3_amended_witness :
    compress_pdf c3Env 0 =
      { result := .error ⟨500, gsNotFoundDetail⟩
        inputWritten := true, inputDeleted := false, outputDeleted := false
        procCalls := 0 } :=
  c3_amended_gs_missing c3Env 0 _ rfl rfl rfl

/-- C4 counterexample: when every attempt fails, the handler raises the 500
without removing the persisted input artifact — cleanup is not unconditional. -/
theorem c4_error_path_keeps_input :
    (∃ e, (compress_pdf c4Env 0).result = .error e) ∧
    (compress_pdf c4Env 0).inputWritten = true ∧
    (compress_pdf c4Env 0).inputDeleted = false :=
  ⟨⟨_, rfl⟩, rfl, rfl⟩

/-- C4 amended: the input temp artifact is deleted (best-effort, swallowing a
removal failure) only on the success path; on every error path the input is
left in the workspace for the reaper.  The pipeline never deletes the chosen
output artifact. -/
theorem c4_amended_cleanup_only_on_success (env : Env) (level : Int) :
    (∀ r, (compress_pdf env level).result = .ok r →
      (compress_pdf env level).inputDeleted = env.inputRemoveOk) ∧
    (∀ e, (compress_pdf env level).result = .error e →
      (compress_pdf env level).inputDeleted = false) ∧
    (compress_pdf env level).outputDeleted = false := by
  rcases compress_pdf_shape env level with ⟨⟨r, hr⟩, h1, h2⟩ | ⟨⟨e, he⟩, h1, h2⟩
  · refine ⟨fun _ _ => h1, fun e he => ?_, h2⟩
    rw [hr] at he
    simp at he
  · refine ⟨fun r hr => ?_, fun _ _ => h1, h2⟩
    rw [he] at hr
    simp at hr

/-- C4 witness: the total-failure environment keeps the input artifact. -/
theorem c4_amended_witness :
    (compress_pdf c4Env 0).inputDeleted = false :=
  (c4_amended_cleanup_only_on_success c4Env 0).2.1 _ rfl

/-- C5: for every successful compression the reported reduction percentage
equals `max(0, 100 * (1 - compressed_size / original_size))`, lies in `[0, 100]`,
is clamped to 0 whenever the reported output size is at least the input size
(in particular when larger), and is 0 when the original size is 0. -/
theorem c5_reduction_percentage (env : Env) (level : Int) (r : Response)
    (h : (compress_pdf env level).result = .ok r) :
    r.xReductionPercentage =
      (if 0 < r.xOriginalSize then
        max 0 (100 * (1 - (r.xCompressedSize : Rat) / (r.xOriginalSize : Rat)))
      else 0) ∧
    0 ≤ r.xReductionPercentage ∧ r.xReductionPercentage ≤ 100 ∧
    (r.xOriginalSize ≤ r.xCompressedSize → r.xReductionPercentage = 0) ∧
    (r.xOriginalSize = 0 → r.xReductionPercentage = 0) := by
  obtain ⟨s, -, hred, -⟩ := compress_pdf_ok env level r h
  rw [hred]
  refine ⟨rfl, reduction_nonneg _ _, reduction_le_hundred _ _,
    fun hle => reduction_eq_zero_of_le _ _ hle, fun h0 => ?_⟩
  rw [h0]
  exact reduction_orig_zero _

/-- C5 witness: a successful request shrinking 100 bytes to 40. -/
theorem c5_witness :
    ∃ r, (compress_pdf c5Env 0).result = .ok r ∧
      (r.xReductionPercentage =
        (if 0 < r.xOriginalSize then
          max 0 (100 * (1 - (r.xCompressedSize : Rat) / (r.xOriginalSize : Rat)))
        else 0) ∧
      0 ≤ r.xReductionPercentage ∧ r.xReductionPercentage ≤ 100 ∧
      (r.xOriginalSize ≤ r.xCompressedSize → r.xReductionPercentage = 0) ∧
      (r.xOriginalSize = 0 → r.xReductionPercentage = 0)) :=
  ⟨_, rfl, c5_reduction_percentage c5Env 0 _ rfl⟩

/-- C6 counterexample: primary and fallback both fail with different
diagnostics; the fallback attempt did run (two invocations), yet the 500 detail
carries the primary attempt's text, and the outcome is unchanged when only the
fallback's diagnostic text changes. -/
theorem c6_fallback_diag_not_surfaced :
    (compress_pdf c6Env 0).procCalls = 2 ∧
    (compress_pdf c6Env 0).result =
      .error ⟨500, "Compression failed after all attempts. Ghostscript error: primary boom"⟩ ∧
    compress_pdf { c6Env with fallbackErr := "changed" } 0 = compress_pdf c6Env 0 :=
  ⟨rfl, rfl, rfl⟩

/-- C6 amended: when every attempt is exhausted without a usable output, the
request fails with an HTTP 500 whose detail surfaces the diagnostic text
captured from the primary attempt (the `stderr_output` variable); the fallback
attempt's diagnostics are only printed, never surfaced.  The fallback did run:
two external invocations were made. -/
theorem c6_amended_primary_diag_surfaced (env : Env) (level : Int) (s : QSettings)
    (hname : env.filenameIsPdf = true)
    (hlevel : quality_settings level = some s)
    (hgs : env.gsFound = true)
    (hp : env.primaryOk = false ∨ env.primaryOutAfter = none ∨ env.primaryOutAfter = some 0)
    (hf : env.fallbackOk = false ∨ env.fallbackOutAfter = none ∨
      env.fallbackOutAfter = some 0) :
    (compress_pdf env level).result =
      .error ⟨500, compressionFailedDetail env.primaryDiag⟩ ∧
    (compress_pdf env level).procCalls = 2 := by
  have hvf : ∀ calls : Nat,
      (verifyAndFinish env level s env.primaryOk .output env.primaryOutAfter calls).result =
        .error ⟨500, compressionFailedDetail env.primaryDiag⟩ ∧
      (verifyAndFinish env level s env.primaryOk .output env.primaryOutAfter calls).procCalls
        = calls := by
    intro calls
    unfold verifyAndFinish
    rcases hp with hp | hp | hp
    · rw [hp]
      exact ⟨rfl, rfl⟩
    · rw [hp]
      cases env.primaryOk <;> exact ⟨rfl, rfl⟩
    · rw [hp]
      cases env.primaryOk <;> exact ⟨rfl, rfl⟩
  have hfb : fallbackStep env level s =
      verifyAndFinish env level s env.primaryOk .output env.primaryOutAfter 2 := by
    unfold fallbackStep
    rw [if_pos hp]
    rcases hf with hf | hf | hf
    · rw [hf]
    · rw [hf]
      cases env.fallbackOk <;> rfl
    · rw [hf]
      cases env.fallbackOk <;> rfl
  have hc : compress_pdf env level = fallbackStep env level s := by
    simp [compress_pdf, hname, hlevel, hgs]
  rw [hc, hfb]
  exact hvf 2

/-- C6 witness: both attempts fail on `c6Env`. -/
theorem c6_amended_witness :
    (compress_pdf c6Env 0).result =
      .error ⟨500, compressionFailedDetail c6Env.primaryDiag⟩ ∧
    (compress_pdf c6Env 0).procCalls = 2 :=
  c6_amended_primary_diag_surfaced c6Env 0 _ rfl rfl rfl (Or.inl rfl) (Or.inl rfl)

/-- C9: a request that omits the level parameter gets the declared default 0,
whose preset is `/screen` with 72 DPI on all three channels, JPEG quality 10 and
downsampling enabled; with a valid filename such a request is never answered
with the level-validation 400. -/
theorem c9_default_level_is_screen :
    (∀ env, compress_pdf_default env = compress_pdf env 0) ∧
    quality_settings default_level = some ⟨"/screen", 72, 72, 72, 10, true⟩ ∧
    (∀ env, env.filenameIsPdf = true →
      (compress_pdf_default env).result ≠
        .error ⟨400, "Compression level must be 0, 1, 2, or 3"⟩) := by
  refine ⟨fun env => rfl, rfl, fun env hname hcontra => ?_⟩
  have h5 := compress_pdf_err_500 env 0 ⟨"/screen", 72, 72, 72, 10, true⟩
    ⟨400, "Compression level must be 0, 1, 2, or 3"⟩ hname rfl hcontra
  exact absurd h5 (by decide)

/-- C9 witness: a valid request under the default level. -/
theorem c9_witness :
    (compress_pdf_default c9Env).result ≠
      .error ⟨400, "Compression level must be 0, 1, 2, or 3"⟩ :=
  c9_default_level_is_screen.2.2 c9Env rfl

/-- C10: whenever a compression request succeeds, the `X-Quality-Setting`
header carries the preset name of the originally requested level, whichever
attempt actually produced the returned file. -/
theorem c10_quality_header_is_requested_preset (env : Env) (level : Int)
    (s : QSettings) (r : Response)
    (hs : quality_settings level = some s)
    (h : (compress_pdf env level).result = .ok r) :
    r.xQualitySetting = s.preset := by
  obtain ⟨s2, hs2, -, hq⟩ := compress_pdf_ok env level r h
  rw [hs] at hs2
  injection hs2 with hs2
  rw [hs2]
  exact hq

/-- C10 witness: the fallback profile produces the returned file, yet the
header reports the requested level-0 preset. -/
theorem c10_witness :
    ∃ r, (compress_pdf c10Env 0).result = .ok r ∧ r.path = .fallback ∧
      r.xQualitySetting = "/screen" :=
  ⟨_, rfl, rfl, c10_quality_header_is_requested_preset c10Env 0 _ _ rfl rfl⟩

/-! ### Merge and cleanup lemmas -/

theorem mergeLoop_append (files : List MUploadFile) :
    ∀ acc, (∀ f ∈ files, lowerEndsWithPdf f.filename = true) →
      mergeLoop files acc = .ok (acc ++ allPages files) := by
  induction files with
  | nil =>
      intro acc _
      simp [mergeLoop, allPages]
  | cons f rest ih =>
      intro acc h
      have hf := h f (List.mem_cons_self f rest)
      have hrest := ih (acc ++ f.pages) fun g hg => h g (List.mem_cons_of_mem f hg)
      simp [mergeLoop, hf, allPages, hrest, List.append_assoc]

theorem allPages_length (files : List MUploadFile) :
    (allPages files).length = (files.map fun f => f.pages.length).sum := by
  induction files with
  | nil => rfl
  | cons f rest ih => simp [allPages, ih]

theorem cleanup_eq_filter (now : Int) (entries : List DirEntry) :
    cleanup_old_files now entries =
      entries.filter fun e => !(e.isFile && decide (3600 < now - e.mtime) && e.removeOk) := by
  induction entries with
  | nil => rfl
  | cons e rest ih =>
      by_cases h2 : 3600 < now - e.mtime <;>
        rcases h1 : e.isFile with - | - <;>
        rcases h3 : e.removeOk with - | - <;>
        simp [cleanup_old_files, List.filter_cons, h1, h2, h3, ih]

/-- C7: merging fewer than 2 files always fails with the 400 validation error;
merging N ≥ 2 files whose names all pass the PDF check yields exactly one
output whose pages are the concatenation of the inputs' pages in input-file
order (page order preserved within each file), so its page count is the sum of
the inputs' page counts. -/
theorem c7_merge_contract (files : List MUploadFile) :
    (files.length < 2 →
      merge_pdfs files = .error ⟨400, "At least 2 PDF files are required"⟩) ∧
    (2 ≤ files.length → (∀ f ∈ files, lowerEndsWithPdf f.filename = true) →
      merge_pdfs files = .ok (allPages files) ∧
      (allPages files).length = (files.map fun f => f.pages.length).sum) := by
  constructor
  · intro hlt
    simp [merge_pdfs, hlt]
  · intro hge hvalid
    have hnot : ¬ files.length < 2 := Nat.not_lt.mpr hge
    refine ⟨?_, allPages_length files⟩
    rw [merge_pdfs, if_neg hnot, mergeLoop_append files [] hvalid]
    simp

/-- C7 witness: two valid files of one and two pages merge into a three-page
output. -/
theorem c7_witness :
    merge_pdfs c7Files = .ok (allPages c7Files) ∧
    (allPages c7Files).length = (c7Files.map fun f => f.pages.length).sum :=
  (c7_merge_contract c7Files).2 (by decide) (by decide)

/-- C8: the startup cleanup removes from the flat directory listing exactly the
regular files strictly older than 3600 seconds whose removal succeeds: an entry
whose age is at most 3600 seconds always survives, a deletable regular file
strictly older than 3600 seconds is always removed, and a failing removal is
skipped, leaving that entry in place (the sweep itself always completes). -/
theorem c8_cleanup_contract (now : Int) (entries : List DirEntry) :
    cleanup_old_files now entries =
      entries.filter (fun e => !(e.isFile && decide (3600 < now - e.mtime) && e.removeOk)) ∧
    (∀ e ∈ entries, now - e.mtime ≤ 3600 → e ∈ cleanup_old_files now entries) ∧
    (∀ e ∈ entries, e.isFile = true → 3600 < now - e.mtime → e.removeOk = true →
      e ∉ cleanup_old_files now entries) ∧
    (∀ e ∈ entries, e.isFile = true → 3600 < now - e.mtime → e.removeOk = false →
      e ∈ cleanup_old_files now entries) := by
  refine ⟨cleanup_eq_filter now entries, ?_, ?_, ?_⟩
  · intro e he hage
    rw [cleanup_eq_filter]
    refine List.mem_filter.mpr ⟨he, ?_⟩
    have : decide (3600 < now - e.mtime) = false := by
      simp only [decide_eq_false_iff_not]
      omega
    simp [this]
  · intro e he hfile hage hok hmem
    rw [cleanup_eq_filter] at hmem
    have := (List.mem_filter.mp hmem).2
    simp [hfile, hage, hok] at this
  · intro e he hfile hage hok
    rw [cleanup_eq_filter]
    refine List.mem_filter.mpr ⟨he, ?_⟩
    simp [hok]

/-- C8 witness: at `now = 10000`, the fresh file and the file whose removal
fails survive, the stale deletable file is removed. -/
theorem c8_witness :
    (⟨"fresh.pdf", true, 8000, true⟩ : DirEntry) ∈ cleanup_old_files 10000 c8Entries ∧
    (⟨"stale.pdf", true, 1000, true⟩ : DirEntry) ∉ cleanup_old_files 10000 c8Entries ∧
    (⟨"locked.pdf", true, 1000, false⟩ : DirEntry) ∈ cleanup_old_files 10000 c8Entries :=
  ⟨(c8_cleanup_contract 10000 c8Entries).2.1 _ (by decide) (by decide),
   (c8_cleanup_contract 10000 c8Entries).2.2.1 _ (by decide) rfl (by decide) rfl,
   (c8_cleanup_contract 10000 c8Entries).2.2.2 _ (by decide) rfl (by decide) rfl⟩

end AndPdf
